import Mathlib

/-!
Shallow embedding of the conversation/lifecycle engine (`aims/models.py`) and
the heuristic evaluation engine (`aims/evaluation.py`) of the LLMBench
repository, together with proofs of the specification claims about them.

Conventions of the embedding:
* Python `float` timestamps and durations are modelled as `ℚ` (they are only
  added, subtracted and averaged); heuristic evaluation scores are modelled as
  `ℝ` because the creativity dimension takes a square root (`np.std`).
* Python `dict`s are modelled as association lists looked up with
  `dictGet` (first match wins, like a dict with unique keys).
* The wall clock (`time.time()`) and the fresh UUID are passed in explicitly
  as arguments `now` / `conv_id`.
* File-system writes (`save_to_file`, the summary CSV) are not modelled; only
  the state mutations those methods perform on the in-memory registry are.
* A Python `AttributeError` escaping `evaluate_conversation` (which happens
  when a response's content is not a plain string, since `response.lower()`
  is called on it) is modelled with `Except`.
-/

namespace LLMBench

/-- Structured message content, `models.py` line 18: `content` is either plain
text or a list of part dicts (each part optionally carrying a `"text"` key);
`evaluation.py` additionally handles a bare dict carrying a `"text"` key. -/
inductive ContentPart where
  | withText (s : String)
  | noText
  deriving DecidableEq

/-- Tagged union for Python message content: a plain string, a list of parts,
or a dict with a `"text"` field. -/
inductive Content where
  | str (s : String)
  | parts (ps : List ContentPart)
  | dictText (s : String)
  deriving DecidableEq

/-- Is the content a plain Python string? -/
def Content.isStr : Content → Bool
  | .str _ => true
  | _ => false

/-- Message, `models.py` lines 14-23: role, content, timestamp. -/
structure Message where
  role : String
  content : Content
  timestamp : ℚ
  deriving DecidableEq

instance : Inhabited Message := ⟨⟨"", .str "", 0⟩⟩

/-- The metrics dict produced by `Conversation.calculate_metrics`
(`models.py` lines 51-56). -/
structure Metrics where
  total_duration : ℚ
  num_turns : ℕ
  avg_assistant_response_time : ℚ
  avg_assistant_response_length : ℚ
  deriving DecidableEq

/-- Conversation, `models.py` lines 26-35. -/
structure Conversation where
  id : String
  api_name : String
  messages : List Message
  model : String
  start_time : ℚ
  end_time : Option ℚ := none
  metrics : Option Metrics := none
  deriving DecidableEq

/-- `Conversation.add_message`, `models.py` lines 37-39. -/
def Conversation.add_message (c : Conversation) (m : Message) : Conversation :=
  { c with messages := c.messages ++ [m] }

/-- `Conversation.end_conversation`, `models.py` lines 41-43; the current
wall-clock time is passed in as `now`. -/
def Conversation.end_conversation (c : Conversation) (now : ℚ) : Conversation :=
  { c with end_time := some now }

/-- Python truthiness of the `end_time` field: `if not self.end_time`
(`models.py` line 47) fires when `end_time` is `None` or `0.0`. -/
def endTimeTruthy : Option ℚ → Bool
  | none => false
  | some t => if t = 0 then false else true

/-- Python length of a message's content, as computed inside
`_calculate_avg_response_length` (`models.py` line 72): `len(r)` for a string,
the summed length of the `"text"` entries of the part dicts for a list, and
`0` for a bare dict (iterating a Python dict yields its keys, which are not
dicts, so the generator sums nothing). -/
def contentLength : Content → ℕ
  | .str s => s.length
  | .parts ps => (ps.map fun p => match p with | .withText s => s.length | .noText => 0).sum
  | .dictText _ => 0

/-- Body of the loop of `_calculate_avg_response_time` (`models.py` line 63):
an adjacent (user, assistant) pair contributes its timestamp difference. -/
def respDelta (prev cur : Message) : Option ℚ :=
  if cur.role = "assistant" ∧ prev.role = "user" then
    some (cur.timestamp - prev.timestamp)
  else none

/-- The `response_times` list of `_calculate_avg_response_time`
(`models.py` lines 61-64): indices `i` in `range(1, len(messages))`, read
through `getD` exactly as the Python loop indexes `messages[i]` and
`messages[i-1]`. -/
def calc_response_times (msgs : List Message) : List ℚ :=
  ((List.range msgs.length).drop 1).filterMap fun i =>
    respDelta (msgs.getD (i - 1) default) (msgs.getD i default)

/-- `Conversation._calculate_avg_response_time`, `models.py` lines 59-65. -/
def calc_avg_response_time (msgs : List Message) : ℚ :=
  let ts := calc_response_times msgs
  if ts = [] then 0 else ts.sum / ts.length

/-- `Conversation._calculate_avg_response_length`, `models.py` lines 67-74. -/
def calc_avg_response_length (msgs : List Message) : ℚ :=
  let responses := (msgs.filter fun m => m.role == "assistant").map (·.content)
  if responses = [] then 0
  else ((responses.map fun r => (contentLength r : ℚ)).sum) / responses.length

/-- `Conversation.calculate_metrics`, `models.py` lines 45-57: ends the
conversation first when `end_time` is falsy, then recomputes the whole
metrics dict from the message list and the time bounds. -/
def Conversation.calculate_metrics (c : Conversation) (now : ℚ) : Conversation :=
  let c' := if endTimeTruthy c.end_time then c else c.end_conversation now
  { c' with metrics := some {
      total_duration := c'.end_time.getD 0 - c'.start_time,
      num_turns := (c'.messages.filter fun m => m.role == "user").length,
      avg_assistant_response_time := calc_avg_response_time c'.messages,
      avg_assistant_response_length := calc_avg_response_length c'.messages } }

/-- Python dict lookup `m.get(k)` on an association list (first match
wins; the ConversationManager never stores duplicate keys). -/
def dictGet {α : Type} : List (String × α) → String → Option α
  | [], _ => none
  | (k, v) :: m, key => if key = k then some v else dictGet m key

/-- Python dict assignment `m[k] = v` on an association list: replace the
value of every entry already keyed `k`, otherwise append a fresh entry. -/
def dictSet {α : Type} (m : List (String × α)) (k : String) (v : α) : List (String × α) :=
  if (dictGet m k).isSome then m.map fun p => (p.1, if p.1 = k then v else p.2)
  else m ++ [(k, v)]

/-- `ConversationManager`, `models.py` lines 90-94: a registry of
conversations keyed by id plus a current-conversation pointer per API. -/
structure ConversationManager where
  conversations : List (String × Conversation)
  current_conversation_ids : List (String × Option String)
  deriving DecidableEq

/-- `ConversationManager.__init__`, `models.py` lines 92-94. -/
def ConversationManager.init : ConversationManager :=
  ⟨[], [("monica", none), ("openai", none), ("gemini", none)]⟩

/-- `ConversationManager.start_conversation`, `models.py` lines 96-108: the
fresh UUID is passed in as `conv_id` and the wall clock as `now`; the new
conversation is registered in `conversations` first and the current pointer
for `api_name` is set second, as in the source. -/
def ConversationManager.start_conversation (mgr : ConversationManager)
    (api_name model conv_id : String) (now : ℚ) : String × ConversationManager :=
  let conversation : Conversation :=
    { id := conv_id, api_name := api_name, messages := [], model := model,
      start_time := now }
  (conv_id,
    { conversations := dictSet mgr.conversations conv_id conversation,
      current_conversation_ids :=
        dictSet mgr.current_conversation_ids api_name (some conv_id) })

/-- `ConversationManager.add_message`, `models.py` lines 110-115: append to
the conversation named by `conv_id` when it exists and report `true`,
otherwise report `false` and leave the registry untouched. -/
def ConversationManager.add_message (mgr : ConversationManager)
    (conv_id : String) (message : Message) : Bool × ConversationManager :=
  if (dictGet mgr.conversations conv_id).isSome then
    (true, { mgr with conversations := mgr.conversations.map fun p =>
        (p.1, if p.1 = conv_id then p.2.add_message message else p.2) })
  else (false, mgr)

/-- `ConversationManager.get_conversation`, `models.py` lines 117-119; it
does not mutate the registry, so it returns the manager unchanged. -/
def ConversationManager.get_conversation (mgr : ConversationManager)
    (conv_id : String) : Option Conversation × ConversationManager :=
  (dictGet mgr.conversations conv_id, mgr)

/-- `ConversationManager.get_current_conversation`, `models.py` lines
121-126: `if conv_id:` is Python truthiness, so a missing pointer, a `None`
pointer and an empty-string pointer all yield `None`. -/
def ConversationManager.get_current_conversation (mgr : ConversationManager)
    (api_name : String) : Option Conversation × ConversationManager :=
  match dictGet mgr.current_conversation_ids api_name with
  | some (some conv_id) =>
      (if conv_id = "" then none else dictGet mgr.conversations conv_id, mgr)
  | _ => (none, mgr)

/-- `ConversationManager.end_conversation`, `models.py` lines 128-133. -/
def ConversationManager.end_conversation (mgr : ConversationManager)
    (conv_id : String) (now : ℚ) : Bool × ConversationManager :=
  if (dictGet mgr.conversations conv_id).isSome then
    (true, { mgr with conversations := mgr.conversations.map fun p =>
        (p.1, if p.1 = conv_id then p.2.end_conversation now else p.2) })
  else (false, mgr)

/-- Per-conversation step of `ConversationManager.save_all_conversations`,
`models.py` lines 139-142: end the conversation if not yet ended, then
recompute its metrics; the JSON/CSV writes themselves do not touch the
registry and are not modelled. -/
def saveStep (now : ℚ) (cv : Conversation) : Conversation :=
  (if endTimeTruthy cv.end_time then cv else cv.end_conversation now).calculate_metrics now

/-- State mutation performed on the registry by `save_all_conversations`. -/
def ConversationManager.save_all_conversations (mgr : ConversationManager)
    (now : ℚ) : ConversationManager :=
  { mgr with conversations := mgr.conversations.map fun p => (p.1, saveStep now p.2) }

/-- The store invariant of the spec: every pointer held in
`current_conversation_ids` is either `None` or a key of `conversations`. -/
def invB (mgr : ConversationManager) : Bool :=
  mgr.current_conversation_ids.all fun p =>
    match p.2 with
    | none => true
    | some cid => (dictGet mgr.conversations cid).isSome

/-- Propositional form of the store invariant. -/
def Inv (mgr : ConversationManager) : Prop := invB mgr = true

instance (mgr : ConversationManager) : Decidable (Inv mgr) := by
  unfold Inv; infer_instance

/-! Text helpers of `evaluation.py`, modelled on `List Char` so that every
operation is structural (Python `str.lower()`, `str.strip()`, `str.split()`,
single-character `str.replace` and the substring operator `in`). -/

/-- Python `str.lower()` (character-wise lowering). -/
def lowerStr (s : String) : String := String.mk (s.data.map Char.toLower)

/-- Does `pat` occur at the start of `s`? Helper for the Python substring
operator. -/
def startsWithSeq : List Char → List Char → Bool
  | [], _ => true
  | _ :: _, [] => false
  | p :: ps, c :: cs => p == c && startsWithSeq ps cs

/-- Python `pat in s` on character lists: `pat` occurs contiguously in `s`. -/
def hasSubSeq (pat : List Char) : List Char → Bool
  | [] => pat.isEmpty
  | c :: cs => startsWithSeq pat (c :: cs) || hasSubSeq pat cs

/-- Python `pat in s` on strings. -/
def containsSub (s pat : String) : Bool := hasSubSeq pat.data s.data

/-- Python `sum(phrase in s for phrase in phrases)`: the number of phrases of
the lexicon that occur in `s`. -/
def countContained (s : String) (phrases : List String) : ℕ :=
  (phrases.filter fun p => containsSub s p).length

/-- Python `str.split()` with no separator: split on whitespace runs and drop
empty pieces (accumulator-passing scan). -/
def splitWsAux : List Char → List Char → List String
  | [], acc => if acc.isEmpty then [] else [String.mk acc.reverse]
  | c :: cs, acc =>
      if c.isWhitespace then
        if acc.isEmpty then splitWsAux cs [] else String.mk acc.reverse :: splitWsAux cs []
      else splitWsAux cs (c :: acc)

/-- Python `str.split()` with no separator. -/
def pySplitWs (s : String) : List String := splitWsAux s.data []

/-- Python `str.split(sep)` for a one-character separator: keeps empty
pieces, as Python does. -/
def splitCharAux (sep : Char) : List Char → List Char → List String
  | [], acc => [String.mk acc.reverse]
  | c :: cs, acc =>
      if c = sep then String.mk acc.reverse :: splitCharAux sep cs []
      else splitCharAux sep cs (c :: acc)

/-- Python `s.split("\n\n")`: split on the two-character separator,
non-overlapping and left to right, keeping empty pieces. -/
def splitNl2Aux : List Char → List Char → List String
  | [], acc => [String.mk acc.reverse]
  | '\n' :: '\n' :: cs, acc => String.mk acc.reverse :: splitNl2Aux cs []
  | c :: cs, acc => splitNl2Aux cs (c :: acc)

/-- Python `str.strip()` on a string. -/
def stripStr (s : String) : String :=
  String.mk (((s.data.dropWhile Char.isWhitespace).reverse.dropWhile Char.isWhitespace).reverse)

/-- `ConversationEvaluator._tokenize`, `evaluation.py` lines 246-249: replace
the five Chinese punctuation marks by spaces, then split on whitespace. -/
def tokenize (text : String) : List String :=
  pySplitWs (String.mk (text.data.map fun c =>
    if c = '，' ∨ c = '。' ∨ c = '！' ∨ c = '？' ∨ c = '、' then ' ' else c))

/-- Python `set(self._tokenize(s))`. -/
def tokenSet (s : String) : Finset String := (tokenize s).toFinset

/-- Number of tokens shared by the lowered prompt and the lowered response
(the numerator of the relevance overlap ratio, `evaluation.py` line 148). -/
def overlapCount (prompt response : String) : ℕ :=
  (tokenSet (lowerStr prompt) ∩ tokenSet (lowerStr response)).card

/-- The response-length factor of `_evaluate_relevance`, `evaluation.py`
line 151: `min(1.0, len(response)/1000) * min(1.0, 5000/max(1, len(response)))`. -/
noncomputable def lengthFactor (response : String) : ℝ :=
  min 1 ((response.length : ℝ) / 1000) * min 1 (5000 / ((max 1 response.length : ℕ) : ℝ))

/-- `ConversationEvaluator._evaluate_relevance`, `evaluation.py`
lines 141-155. -/
noncomputable def evaluate_relevance (prompt response : String) : ℝ :=
  let overlap : ℝ :=
    (overlapCount prompt response : ℝ) / ((max 1 (tokenSet (lowerStr prompt)).card : ℕ) : ℝ)
  min 1 (max 0 (0.7 + 0.3 * overlap * lengthFactor response))

/-- The uncertainty lexicon of `_evaluate_accuracy`, `evaluation.py` line 162. -/
def uncertainty_phrases : List String :=
  ["我不确定", "可能", "也许", "我猜", "不太清楚", "不太确定"]

/-- The factual-assertion lexicon of `_evaluate_accuracy`, `evaluation.py`
line 166. -/
def fact_indicators : List String :=
  ["事实上", "研究表明", "数据显示", "根据", "证明", "证实"]

/-- `ConversationEvaluator._evaluate_accuracy`, `evaluation.py`
lines 157-174. -/
noncomputable def evaluate_accuracy (prompt response : String) : ℝ :=
  let uncertainty_count := countContained (lowerStr response) uncertainty_phrases
  let fact_count := countContained (lowerStr response) fact_indicators
  min 1 (max 0.5 (0.8 - (uncertainty_count : ℝ) * 0.05 + (fact_count : ℝ) * 0.03))

/-- The structural-marker lexicon of `_evaluate_completeness`,
`evaluation.py` line 182. -/
def structure_indicators : List String :=
  ["：", ":", "\n-", "\n•", "\n*", "\n1.", "首先", "其次", "最后", "总结"]

/-- `ConversationEvaluator._evaluate_completeness`, `evaluation.py`
lines 176-188 (the marker search is on the raw response, not lowered). -/
noncomputable def evaluate_completeness (prompt response : String) : ℝ :=
  let length_score : ℝ := min 1 ((response.length : ℝ) / 500)
  let structure_score : ℝ :=
    if structure_indicators.any (fun p => containsSub response p) then 0.2 else 0
  min 1 (0.7 * length_score + 0.3 + structure_score)

/-- The logical-connector lexicon of `_evaluate_coherence`, `evaluation.py`
line 200. -/
def connectors : List String :=
  ["因此", "所以", "然而", "但是", "此外", "另外", "总之", "首先", "其次", "最后"]

/-- `ConversationEvaluator._evaluate_coherence`, `evaluation.py`
lines 190-219; `context` is the running list of `(prompt, response)` pairs of
the earlier turns. -/
noncomputable def evaluate_coherence (prompt response : String)
    (context : List (String × String)) : ℝ :=
  let paragraphs := splitNl2Aux response.data []
  let paragraph_score : ℝ := min 1 ((paragraphs.length : ℝ) / 3) * 0.1
  let connector_count := countContained (lowerStr response) connectors
  let connector_score : ℝ := min 0.1 ((connector_count : ℝ) * 0.02)
  let context_score : ℝ :=
    if context.isEmpty then 0
    else
      let prev_responses := String.intercalate " " (context.map (·.2))
      let prev_prompts := String.intercalate " " (context.map (·.1))
      let prev_words := tokenSet (lowerStr (prev_responses ++ " " ++ prev_prompts))
      let response_words := tokenSet (lowerStr response)
      ((prev_words ∩ response_words).card : ℝ) /
        ((max 1 response_words.card : ℕ) : ℝ) * 0.1
  min 1 (0.8 + paragraph_score + connector_score + context_score)

/-- The rhetorical-phrase lexicon of `_evaluate_creativity`, `evaluation.py`
line 224. -/
def rhetoric_phrases : List String :=
  ["就像", "类似于", "可以比作", "想象", "比如说", "形象地说"]

/-- The sentence list of `_evaluate_creativity`, `evaluation.py` line 233:
`！` and `？` are mapped to `。`, `!` and `?` to `.`, the result is split on
`。`, and stripped non-empty pieces are kept. -/
def pySentences (response : String) : List String :=
  ((splitCharAux '。' (response.data.map fun c =>
      if c = '！' ∨ c = '？' then '。' else if c = '!' ∨ c = '?' then '.' else c) []).map
    stripStr).filter (· ≠ "")

/-- Arithmetic mean of a list of reals (`sum(l)/len(l)`, and Lean's `x / 0 = 0`
convention for the empty list, which every call site guards against). -/
noncomputable def listMean (l : List ℝ) : ℝ := l.sum / l.length

/-- `np.std` (population standard deviation). -/
noncomputable def npStd (l : List ℝ) : ℝ :=
  Real.sqrt (((l.map fun x => (x - listMean l) ^ 2).sum) / l.length)

/-- `ConversationEvaluator._evaluate_creativity`, `evaluation.py`
lines 221-244. -/
noncomputable def evaluate_creativity (response : String) : ℝ :=
  let rhetoric_count := countContained (lowerStr response) rhetoric_phrases
  let words := tokenize (lowerStr response)
  let vocabulary_diversity : ℝ :=
    (words.toFinset.card : ℝ) / ((max 1 words.length : ℕ) : ℝ)
  let sentences := pySentences response
  let sentence_lengths : List ℝ := sentences.map fun s => (s.length : ℝ)
  let sentence_diversity : ℝ :=
    if sentences.isEmpty then 0
    else npStd sentence_lengths / max 1 (listMean sentence_lengths)
  let rhetoric_score : ℝ := min 0.1 ((rhetoric_count : ℝ) * 0.03)
  let diversity_score : ℝ := vocabulary_diversity * 0.1
  let sentence_score : ℝ := min 0.1 (sentence_diversity * 0.5)
  min 1 (max 0.5 (0.7 + rhetoric_score + diversity_score + sentence_score))

/-- Result dict of `evaluate_response` (`evaluation.py` lines 81-85): the five
dimension scores (each paired in the source with its fixed weight) and the
weighted total. -/
structure ResponseEval where
  relevance : ℝ
  accuracy : ℝ
  completeness : ℝ
  coherence : ℝ
  creativity : ℝ
  total_score : ℝ

/-- The five dimension weights of `EVALUATION_DIMENSIONS`, `evaluation.py`
lines 11-32, in dict insertion order. -/
def dimensionWeights : List ℝ := [0.25, 0.25, 0.20, 0.15, 0.15]

/-- `ConversationEvaluator.evaluate_response`, `evaluation.py` lines 46-85:
scores the five dimensions, then accumulates the weighted total over the
score/weight pairs exactly as the Python loop over the dict does. -/
noncomputable def evaluate_response (prompt response : String)
    (context : List (String × String)) : ResponseEval :=
  let rel := evaluate_relevance prompt response
  let acc := evaluate_accuracy prompt response
  let comp := evaluate_completeness prompt response
  let coh := evaluate_coherence prompt response context
  let cre := evaluate_creativity response
  let total := ((([rel, acc, comp, coh, cre]).zip dimensionWeights).foldl
    (fun t p => t + p.1 * p.2) 0)
  ⟨rel, acc, comp, coh, cre, total⟩

/-- Text extraction applied to the prompt content in `evaluate_conversation`,
`evaluation.py` lines 107-117: a plain string passes through, the `"text"`
entries of a part list are joined with spaces, and a dict's `"text"` entry is
taken. -/
def extractText : Content → String
  | .str s => s
  | .parts items =>
      String.intercalate " "
        (items.filterMap fun it => match it with | .withText t => some t | .noText => none)
  | .dictText t => t

/-- The `AttributeError` raised from `_evaluate_relevance` when a response's
content is not a plain string (`response.lower()` on a list or dict),
`evaluation.py` lines 104 and 144-145. -/
inductive EvalErr where
  | attributeError
  deriving DecidableEq

/-- The turn loop of `evaluate_conversation`, `evaluation.py` lines 101-124:
messages are walked two at a time, the prompt (even index) is extracted to
text, the response (odd index) is passed through unconverted — so a
structured response raises — and the scored pair is appended to the running
context. -/
noncomputable def evalTurns (context : List (String × String)) :
    List Content → Except EvalErr (List ResponseEval)
  | [] => .ok []
  | [_] => .ok []
  | p :: r :: rest =>
      let prompt := extractText p
      match r with
      | .str response =>
          match evalTurns (context ++ [(prompt, response)]) rest with
          | .ok scores => .ok (evaluate_response prompt response context :: scores)
          | .error e => .error e
      | _ => .error .attributeError

/-- The per-dimension averages of `evaluate_conversation`, `evaluation.py`
lines 129-131. -/
structure DimAverages where
  relevance : ℝ
  accuracy : ℝ
  completeness : ℝ
  coherence : ℝ
  creativity : ℝ

/-- Return value of `evaluate_conversation`: either the explicit error dict
`{"error": "No valid turns to evaluate"}` or the per-turn scores with their
averages (`evaluation.py` lines 126-139). -/
inductive ConvEval where
  | evalError (msg : String)
  | success (turn_scores : List ResponseEval) (average_score : ℝ)
      (average_dimensions : DimAverages)

/-- `ConversationEvaluator.evaluate_conversation`, `evaluation.py`
lines 87-139, applied to the content of the conversation's messages (the
roles are never consulted by the source). -/
noncomputable def evaluate_conversation (msgs : List Content) :
    Except EvalErr ConvEval :=
  match evalTurns [] msgs with
  | .error e => .error e
  | .ok [] => .ok (.evalError "No valid turns to evaluate")
  | .ok scores =>
      .ok (.success scores (listMean (scores.map (·.total_score)))
        ⟨listMean (scores.map (·.relevance)), listMean (scores.map (·.accuracy)),
         listMean (scores.map (·.completeness)), listMean (scores.map (·.coherence)),
         listMean (scores.map (·.creativity))⟩)

/-- Number of turns actually scored by `evaluate_conversation`: the length of
the `turn_scores` list, `0` for the no-valid-turns dict and for a raised
exception. -/
def scoredTurns : Except EvalErr ConvEval → ℕ
  | .ok (.success l _ _) => l.length
  | _ => 0

/-- Every response slot (odd index) of the message list holds plain string
content. -/
def allPlainResponses : List Content → Bool
  | [] => true
  | [_] => true
  | _ :: r :: rest => r.isStr && allPlainResponses rest

/-- Adjacent (user, assistant) timestamp differences read off the message
list as the spec words it: for every index `i` such that message `i` is an
assistant message and message `i-1` is a user message, the difference of
their timestamps, in list order (rendered by zipping the list with its
tail). -/
def pairResponseTimes (msgs : List Message) : List ℚ :=
  (msgs.zip msgs.tail).filterMap fun pr => respDelta pr.1 pr.2

/-! Helper lemmas. -/

/-- Filtering consecutive index pairs through `getD` is the same as filtering
the zip of the list with its tail. -/
theorem range_filterMap_getD_eq_zip (xs ys : List Message)
    (f : Message → Message → Option ℚ) :
    (List.range (min xs.length ys.length)).filterMap
        (fun i => f (xs.getD i default) (ys.getD i default)) =
      (xs.zip ys).filterMap fun pr => f pr.1 pr.2 := by
  induction xs generalizing ys with
  | nil => simp
  | cons x xs ih =>
    cases ys with
    | nil => simp
    | cons y ys =>
      have hcongr : ∀ i ∈ List.range (min xs.length ys.length),
          ((fun i => f ((x :: xs).getD i default) ((y :: ys).getD i default)) ∘ Nat.succ) i =
            f (xs.getD i default) (ys.getD i default) := fun i _ => by
        simp [Function.comp]
      rw [List.length_cons, List.length_cons, Nat.succ_min_succ, List.range_succ_eq_map,
        List.zip_cons_cons, List.filterMap_cons, List.filterMap_cons, List.filterMap_map,
        List.filterMap_congr hcongr, ih ys]
      rfl

/-- The Python index loop of `_calculate_avg_response_time` collects exactly
the adjacent-pair timestamp differences. -/
theorem calc_response_times_eq_pair (msgs : List Message) :
    calc_response_times msgs = pairResponseTimes msgs := by
  cases msgs with
  | nil => rfl
  | cons m rest =>
    unfold calc_response_times pairResponseTimes
    rw [List.length_cons, List.range_succ_eq_map, List.tail_cons]
    rw [show (0 :: (List.range rest.length).map Nat.succ).drop 1 =
      (List.range rest.length).map Nat.succ from rfl]
    have hcongr : ∀ i ∈ List.range rest.length,
        ((fun i => respDelta ((m :: rest).getD (i - 1) default)
            ((m :: rest).getD i default)) ∘ Nat.succ) i =
          (fun i => respDelta ((m :: rest).getD i default) (rest.getD i default)) i := by
      intro i _
      simp [Function.comp, Nat.add_sub_cancel]
    rw [List.filterMap_map, List.filterMap_congr hcongr]
    have h := range_filterMap_getD_eq_zip (m :: rest) rest respDelta
    rwa [List.length_cons, min_eq_right (Nat.le_succ rest.length)] at h

/-! Claims about `calculate_metrics` (C2, C3, C4). -/

/-- C2: for every conversation and any interleaving of message roles, after
`calculate_metrics()` the metrics field `num_turns` equals the number of
messages whose role is `'user'`. -/
theorem num_turns_counts_user_messages (c : Conversation) (now : ℚ) :
    ((c.calculate_metrics now).metrics.map (·.num_turns)) =
      some (c.messages.countP fun m => m.role == "user") := by
  cases h : endTimeTruthy c.end_time <;>
    simp [Conversation.calculate_metrics, Conversation.end_conversation, h,
      List.countP_eq_length_filter]

/-- C3: `calculate_metrics()` is idempotent: a second call with the same
clock (no messages added, no timestamps changed) returns the very same
conversation, metrics included — the metrics are recomputed from the message
list and the time bounds, not accumulated. -/
theorem calculate_metrics_idempotent (c : Conversation) (now : ℚ) :
    (c.calculate_metrics now).calculate_metrics now = c.calculate_metrics now := by
  cases he : c.end_time with
  | none =>
      by_cases h0 : now = 0 <;>
        simp [Conversation.calculate_metrics, Conversation.end_conversation,
          endTimeTruthy, he, h0]
  | some t =>
      by_cases ht : t = 0
      · subst ht
        by_cases h0 : now = 0 <;>
          simp [Conversation.calculate_metrics, Conversation.end_conversation,
            endTimeTruthy, he, h0]
      · simp [Conversation.calculate_metrics, Conversation.end_conversation,
          endTimeTruthy, he, ht]

/-- C4: the metric `avg_assistant_response_time` is the arithmetic mean of
the timestamp differences over every index `i` whose message is an assistant
message immediately preceded (at `i-1`) by a user message, and it is `0`
when no such adjacent pair exists. -/
theorem avg_response_time_is_mean_over_adjacent_pairs (c : Conversation) (now : ℚ) :
    ((c.calculate_metrics now).metrics.map (·.avg_assistant_response_time)) =
        some (if pairResponseTimes c.messages = [] then 0
          else (pairResponseTimes c.messages).sum / (pairResponseTimes c.messages).length) ∧
      (pairResponseTimes c.messages = [] →
        ((c.calculate_metrics now).metrics.map (·.avg_assistant_response_time)) = some 0) := by
  have hmain : ((c.calculate_metrics now).metrics.map (·.avg_assistant_response_time)) =
      some (if pairResponseTimes c.messages = [] then 0
        else (pairResponseTimes c.messages).sum / (pairResponseTimes c.messages).length) := by
    cases h : endTimeTruthy c.end_time <;>
      simp [Conversation.calculate_metrics, Conversation.end_conversation, h,
        calc_avg_response_time, calc_response_times_eq_pair]
  exact ⟨hmain, fun hnil => by rw [hmain, if_pos hnil]⟩

/-- Witness for C4 at a conversation with only user messages: no adjacent
(user, assistant) pair exists, so the average response time is `0`. -/
theorem avg_response_time_witness :
    pairResponseTimes [⟨"user", .str "a", 1⟩, ⟨"user", .str "b", 2⟩] = [] ∧
      (((⟨"w", "openai", [⟨"user", .str "a", 1⟩, ⟨"user", .str "b", 2⟩], "gpt-4.1",
          0, none, none⟩ : Conversation).calculate_metrics 5).metrics.map
        (·.avg_assistant_response_time)) = some 0 :=
  ⟨by decide,
    (avg_response_time_is_mean_over_adjacent_pairs
      ⟨"w", "openai", [⟨"user", .str "a", 1⟩, ⟨"user", .str "b", 2⟩], "gpt-4.1",
        0, none, none⟩ 5).2 (by decide)⟩

/-! Claims about the shape of `evaluate_conversation` (C5, C6, C8). -/

/-- Induction over a list two elements at a time, matching the stride-2 turn
loop of `evaluate_conversation`. -/
theorem twoStepList {α : Type} {P : List α → Prop} (h0 : P []) (h1 : ∀ a, P [a])
    (h2 : ∀ a b l, P l → P (a :: b :: l)) : ∀ l, P l
  | [] => h0
  | [a] => h1 a
  | a :: b :: l => h2 a b l (twoStepList h0 h1 h2 l)

/-- When every response slot holds plain string content, the turn loop
finishes without raising and scores one turn per complete pair. -/
theorem evalTurns_plain : ∀ msgs : List Content, allPlainResponses msgs = true →
    ∀ ctx, ∃ l, evalTurns ctx msgs = .ok l ∧ l.length = msgs.length / 2 := by
  refine twoStepList ?_ ?_ ?_
  · exact fun _ _ => ⟨[], rfl, rfl⟩
  · exact fun a _ _ => ⟨[], rfl, by simp⟩
  · intro a b l ih hab ctx
    rw [allPlainResponses, Bool.and_eq_true] at hab
    cases b with
    | str s =>
        obtain ⟨l', hl', hlen⟩ := ih hab.2 (ctx ++ [(extractText a, s)])
        refine ⟨evaluate_response (extractText a) s ctx :: l', ?_, ?_⟩
        · rw [evalTurns, hl']
        · simp [hlen]
          omega
    | parts ps => simp [Content.isStr] at hab
    | dictText t => simp [Content.isStr] at hab

/-- C5 (amended): provided every response slot (odd index) holds plain string
content, `evaluate_conversation` scores exactly `⌊n/2⌋` turns of the `n`
messages; a single unmatched trailing message is never evaluated.  (The
proviso is forced: a structured response makes `response.lower()` raise, see
the counterexample.) -/
theorem evaluate_conversation_turn_count (msgs : List Content)
    (h : allPlainResponses msgs = true) :
    scoredTurns (evaluate_conversation msgs) = msgs.length / 2 := by
  obtain ⟨l, hl, hlen⟩ := evalTurns_plain msgs h []
  unfold evaluate_conversation
  rw [hl]
  cases l with
  | nil => simpa [scoredTurns] using hlen
  | cons s ls => simpa [scoredTurns] using hlen

/-- Witness for C5 (amended): a three-message all-plain conversation has one
complete pair and exactly one scored turn. -/
theorem evaluate_conversation_turn_count_witness :
    allPlainResponses [Content.str "a", Content.str "b", Content.str "c"] = true ∧
      scoredTurns (evaluate_conversation [Content.str "a", Content.str "b", Content.str "c"]) =
        [Content.str "a", Content.str "b", Content.str "c"].length / 2 :=
  ⟨by decide, evaluate_conversation_turn_count _ (by decide)⟩

/-- Counterexample to C5 as stated: a two-message conversation whose response
content is a part list raises `AttributeError` out of
`evaluate_conversation`, so zero turns are scored, not `⌊2/2⌋ = 1`. -/
theorem evaluate_conversation_turn_count_counterexample :
    scoredTurns (evaluate_conversation
        [Content.str "q", Content.parts [ContentPart.withText "a"]]) ≠
      [Content.str "q", Content.parts [ContentPart.withText "a"]].length / 2 := by
  decide

/-- C6: on a conversation with zero complete (prompt, response) pairs — zero
or one message — `evaluate_conversation` returns the explicit error dict
`{"error": "No valid turns to evaluate"}` and no numeric average. -/
theorem evaluate_conversation_no_valid_turns :
    evaluate_conversation [] = .ok (.evalError "No valid turns to evaluate") ∧
      ∀ c : Content, evaluate_conversation [c] =
        .ok (.evalError "No valid turns to evaluate") :=
  ⟨rfl, fun _ => rfl⟩

/-- C8 (amended): the structured-content extraction of
`evaluate_conversation` is applied to the prompt (even index) only: a prompt
whose content is a part list or a `"text"` dict is scored exactly as its
extracted text would be, at any position of the turn loop, while a structured
response is never extracted (see the counterexample, where it raises
instead). -/
theorem evaluate_conversation_extracts_prompt_text (ps : List ContentPart)
    (d s : String) (rest : List Content) (ctx : List (String × String)) :
    evalTurns ctx (Content.parts ps :: Content.str s :: rest) =
        evalTurns ctx (Content.str (extractText (Content.parts ps)) :: Content.str s :: rest) ∧
      evalTurns ctx (Content.dictText d :: Content.str s :: rest) =
        evalTurns ctx (Content.str (extractText (Content.dictText d)) :: Content.str s :: rest) ∧
      evaluate_conversation (Content.parts ps :: Content.str s :: rest) =
        evaluate_conversation
          (Content.str (extractText (Content.parts ps)) :: Content.str s :: rest) ∧
      extractText (Content.parts ps) =
        String.intercalate " " (ps.filterMap fun it =>
          match it with | .withText t => some t | .noText => none) ∧
      extractText (Content.dictText d) = d :=
  ⟨rfl, rfl, rfl, rfl, rfl⟩

/-- Counterexample to C8 as stated: a response (odd index) with structured
content is not extracted and concatenated before scoring — the evaluation
raises `AttributeError` (from `response.lower()`) and scores nothing. -/
theorem evaluate_conversation_response_not_extracted :
    evaluate_conversation [Content.str "hello", Content.dictText "world"] =
        .error EvalErr.attributeError ∧
      scoredTurns (evaluate_conversation [Content.str "hello", Content.dictText "world"]) = 0 :=
  ⟨rfl, rfl⟩

/-! Clamp-range lemmas for the five dimension scores. -/

/-- The relevance score is clamped to `[0, 1]`. -/
theorem evaluate_relevance_bounds (p r : String) :
    0 ≤ evaluate_relevance p r ∧ evaluate_relevance p r ≤ 1 := by
  unfold evaluate_relevance
  exact ⟨le_min (by norm_num) (le_max_left _ _), min_le_left _ _⟩

/-- The accuracy score is clamped to `[0.5, 1]`. -/
theorem evaluate_accuracy_bounds (p r : String) :
    0.5 ≤ evaluate_accuracy p r ∧ evaluate_accuracy p r ≤ 1 := by
  unfold evaluate_accuracy
  exact ⟨le_min (by norm_num) (le_max_left _ _), min_le_left _ _⟩

/-- The completeness score lies in `[0, 1]` (its formula keeps it
nonnegative and the explicit clamp keeps it at most `1`). -/
theorem evaluate_completeness_bounds (p r : String) :
    0 ≤ evaluate_completeness p r ∧ evaluate_completeness p r ≤ 1 := by
  simp only [evaluate_completeness]
  constructor
  · split_ifs <;> positivity
  · exact min_le_left _ _

/-- The coherence score lies in `[0, 1]` (its formula keeps it nonnegative
and the explicit clamp keeps it at most `1`). -/
theorem evaluate_coherence_bounds (p r : String) (ctx : List (String × String)) :
    0 ≤ evaluate_coherence p r ctx ∧ evaluate_coherence p r ctx ≤ 1 := by
  simp only [evaluate_coherence]
  constructor
  · split_ifs <;> positivity
  · exact min_le_left _ _

/-- The creativity score is clamped to `[0.5, 1]`. -/
theorem evaluate_creativity_bounds (r : String) :
    0.5 ≤ evaluate_creativity r ∧ evaluate_creativity r ≤ 1 := by
  simp only [evaluate_creativity]
  exact ⟨le_min (by norm_num) (le_max_left _ _), min_le_left _ _⟩

/-- The weighted fold of `evaluate_response` over the dimension/weight pairs
evaluates to the explicit weighted sum. -/
theorem evaluate_response_total_eq (p r : String) (ctx : List (String × String)) :
    (evaluate_response p r ctx).total_score =
      0.25 * evaluate_relevance p r + 0.25 * evaluate_accuracy p r +
      0.20 * evaluate_completeness p r + 0.15 * evaluate_coherence p r ctx +
      0.15 * evaluate_creativity r := by
  simp [evaluate_response, dimensionWeights]
  ring

/-- C1: the `total_score` of `evaluate_response` is the weighted sum of the
five dimension scores with weights relevance `0.25`, accuracy `0.25`,
completeness `0.20`, coherence `0.15`, creativity `0.15`; it lies in
`[0, 1]`, and every dimension score lies in its documented clamp range
(relevance in `[0, 1]`, accuracy and creativity in `[0.5, 1]`, completeness
and coherence at most `1`). -/
theorem evaluate_response_weighted_total (p r : String) (ctx : List (String × String)) :
    (evaluate_response p r ctx).total_score =
        0.25 * (evaluate_response p r ctx).relevance +
        0.25 * (evaluate_response p r ctx).accuracy +
        0.20 * (evaluate_response p r ctx).completeness +
        0.15 * (evaluate_response p r ctx).coherence +
        0.15 * (evaluate_response p r ctx).creativity ∧
      0 ≤ (evaluate_response p r ctx).total_score ∧
      (evaluate_response p r ctx).total_score ≤ 1 ∧
      0 ≤ (evaluate_response p r ctx).relevance ∧
      (evaluate_response p r ctx).relevance ≤ 1 ∧
      0.5 ≤ (evaluate_response p r ctx).accuracy ∧
      (evaluate_response p r ctx).accuracy ≤ 1 ∧
      (evaluate_response p r ctx).completeness ≤ 1 ∧
      (evaluate_response p r ctx).coherence ≤ 1 ∧
      0.5 ≤ (evaluate_response p r ctx).creativity ∧
      (evaluate_response p r ctx).creativity ≤ 1 := by
  obtain ⟨hr0, hr1⟩ := evaluate_relevance_bounds p r
  obtain ⟨ha0, ha1⟩ := evaluate_accuracy_bounds p r
  obtain ⟨hm0, hm1⟩ := evaluate_completeness_bounds p r
  obtain ⟨hh0, hh1⟩ := evaluate_coherence_bounds p r ctx
  obtain ⟨hv0, hv1⟩ := evaluate_creativity_bounds r
  have hrel : (evaluate_response p r ctx).relevance = evaluate_relevance p r := rfl
  have hacc : (evaluate_response p r ctx).accuracy = evaluate_accuracy p r := rfl
  have hcom : (evaluate_response p r ctx).completeness = evaluate_completeness p r := rfl
  have hcoh : (evaluate_response p r ctx).coherence = evaluate_coherence p r ctx := rfl
  have hcre : (evaluate_response p r ctx).creativity = evaluate_creativity r := rfl
  have htot := evaluate_response_total_eq p r ctx
  rw [hrel, hacc, hcom, hcoh, hcre, htot]
  refine ⟨rfl, by linarith, by linarith, hr0, hr1, ha0, ha1, hm1, hh1, hv0, hv1⟩

/-- C7: the relevance score is the clamp to `[0, 1]` of `0.7` plus `0.3`
times the token-overlap ratio (shared tokens over prompt token count) times
the length-suitability factor; that factor is strictly below `1` (a penalty)
for responses shorter than 200 characters or longer than 5000 characters;
and a prompt/response pair sharing zero tokens scores exactly `0.7`. -/
theorem relevance_formula_spec (p r : String) :
    evaluate_relevance p r =
        min 1 (max 0 (0.7 + 0.3 *
          ((overlapCount p r : ℝ) / ((max 1 (tokenSet (lowerStr p)).card : ℕ) : ℝ)) *
          lengthFactor r)) ∧
      (overlapCount p r = 0 → evaluate_relevance p r = 0.7) ∧
      (r.length < 200 → lengthFactor r < 1) ∧
      (5000 < r.length → lengthFactor r < 1) := by
  refine ⟨rfl, ?_, ?_, ?_⟩
  · intro h
    simp [evaluate_relevance, h]
    rw [max_eq_right (by norm_num), min_eq_right (by norm_num)]
  · intro h
    have hL : ((r.length : ℝ)) < 1000 := by
      have : r.length < 1000 := lt_trans h (by norm_num)
      exact_mod_cast this
    unfold lengthFactor
    have ha1 : min 1 ((r.length : ℝ) / 1000) < 1 :=
      lt_of_le_of_lt (min_le_right _ _) (by rw [div_lt_one (by norm_num)]; exact hL)
    have ha0 : (0:ℝ) ≤ min 1 ((r.length : ℝ) / 1000) := le_min (by norm_num) (by positivity)
    have hb1 : min 1 ((5000:ℝ) / ((max 1 r.length : ℕ) : ℝ)) ≤ 1 := min_le_left _ _
    have hb0 : (0:ℝ) ≤ min 1 ((5000:ℝ) / ((max 1 r.length : ℕ) : ℝ)) :=
      le_min (by norm_num) (by positivity)
    nlinarith [mul_le_of_le_one_right ha0 hb1]
  · intro h
    have hmax : max 1 r.length = r.length := max_eq_right (by omega)
    unfold lengthFactor
    rw [hmax]
    have hpos : (0:ℝ) < (r.length : ℝ) := by
      have : 0 < r.length := by omega
      exact_mod_cast this
    have hb : (5000:ℝ) / (r.length : ℝ) < 1 := by
      rw [div_lt_one hpos]
      exact_mod_cast h
    have hb1 : min 1 ((5000:ℝ) / (r.length : ℝ)) < 1 := lt_of_le_of_lt (min_le_right _ _) hb
    have hb0 : (0:ℝ) ≤ min 1 ((5000:ℝ) / (r.length : ℝ)) := le_min (by norm_num) (by positivity)
    have ha1 : min 1 ((r.length : ℝ) / 1000) ≤ 1 := min_le_left _ _
    have ha0 : (0:ℝ) ≤ min 1 ((r.length : ℝ) / 1000) := le_min (by norm_num) (by positivity)
    nlinarith [mul_le_of_le_one_left hb0 ha1]

/-- Witness for C7: a concrete zero-overlap pair scores exactly `0.7`, a
short response is length-penalized, and a 5001-character response is
length-penalized. -/
theorem relevance_formula_spec_witness :
    overlapCount "什么" "几点" = 0 ∧ evaluate_relevance "什么" "几点" = 0.7 ∧
      "hi".length < 200 ∧ lengthFactor "hi" < 1 ∧
      5000 < (String.mk (List.replicate 5001 'x')).length ∧
      lengthFactor (String.mk (List.replicate 5001 'x')) < 1 :=
  ⟨by decide, (relevance_formula_spec "什么" "几点").2.1 (by decide), by decide,
    (relevance_formula_spec "hi" "hi").2.2.1 (by decide),
    by rw [show (String.mk (List.replicate 5001 'x')).length =
        (List.replicate 5001 'x').length from rfl, List.length_replicate]; norm_num,
    (relevance_formula_spec "x" (String.mk (List.replicate 5001 'x'))).2.2.2
      (by rw [show (String.mk (List.replicate 5001 'x')).length =
        (List.replicate 5001 'x').length from rfl, List.length_replicate]; norm_num)⟩

/-! Association-list lemmas for the manager claims (C9, C10). -/

/-- Lookup after updating the value stored at `key` in place. -/
theorem dictGet_map_if {α : Type} (m : List (String × α)) (key k : String) (f : α → α) :
    dictGet (m.map fun p => (p.1, if p.1 = key then f p.2 else p.2)) k =
      if k = key then (dictGet m key).map f else dictGet m k := by
  induction m with
  | nil => simp [dictGet]
  | cons q m ih =>
    obtain ⟨qk, qv⟩ := q
    by_cases h1 : qk = key
    · subst h1
      by_cases h2 : k = qk
      · subst h2
        simp [dictGet]
      · simp [dictGet, h2, ih]
    · by_cases h2 : k = qk
      · subst h2
        simp [dictGet, h1]
      · simp [dictGet, h1, h2, ih, Ne.symm h1]

/-- Lookup after overwriting the value stored at `key` with a constant. -/
theorem dictGet_map_const {α : Type} (m : List (String × α)) (key k : String) (v : α) :
    dictGet (m.map fun p => (p.1, if p.1 = key then v else p.2)) k =
      if k = key then (dictGet m key).map (fun _ => v) else dictGet m k := by
  induction m with
  | nil => simp [dictGet]
  | cons q m ih =>
    obtain ⟨qk, qv⟩ := q
    by_cases h1 : qk = key
    · subst h1
      by_cases h2 : k = qk
      · subst h2
        simp [dictGet]
      · simp [dictGet, h2, ih]
    · by_cases h2 : k = qk
      · subst h2
        simp [dictGet, h1]
      · simp [dictGet, h1, h2, ih, Ne.symm h1]

/-- Lookup in a list extended by a single trailing entry. -/
theorem dictGet_append_single {α : Type} (m : List (String × α)) (k k2 : String) (v : α) :
    dictGet (m ++ [(k, v)]) k2 =
      if (dictGet m k2).isSome then dictGet m k2
      else if k2 = k then some v else none := by
  induction m with
  | nil => by_cases h : k2 = k <;> simp [dictGet, h]
  | cons q m ih =>
    obtain ⟨qk, qv⟩ := q
    by_cases h : k2 = qk
    · subst h
      simp [dictGet]
    · simp [dictGet, h, ih]

/-- Lookup after a Python dict assignment `m[k] = v`. -/
theorem dictSet_get {α : Type} (m : List (String × α)) (k k2 : String) (v : α) :
    dictGet (dictSet m k v) k2 = if k2 = k then some v else dictGet m k2 := by
  unfold dictSet
  by_cases h : (dictGet m k).isSome
  · rw [if_pos h, dictGet_map_const]
    by_cases h2 : k2 = k
    · subst h2
      obtain ⟨w, hw⟩ := Option.isSome_iff_exists.mp h
      rw [if_pos rfl, if_pos rfl, hw]
      rfl
    · rw [if_neg h2, if_neg h2]
  · rw [if_neg h, dictGet_append_single]
    by_cases h2 : k2 = k
    · subst h2
      rw [Option.not_isSome_iff_eq_none] at h
      simp [h]
    · by_cases h3 : (dictGet m k2).isSome
      · simp [h2, h3]
      · rw [Option.not_isSome_iff_eq_none] at h3
        simp [h2, h3]

/-- The store invariant spelled out: every current-conversation pointer that
holds an identifier resolves inside `conversations`. -/
theorem inv_iff (mgr : ConversationManager) :
    Inv mgr ↔ ∀ p ∈ mgr.current_conversation_ids, ∀ cid, p.2 = some cid →
      (dictGet mgr.conversations cid).isSome = true := by
  unfold Inv invB
  rw [List.all_eq_true]
  constructor
  · intro h p hp cid hcid
    have hm := h p hp
    rw [hcid] at hm
    exact hm
  · intro h p hp
    cases ho : p.2 with
    | none => rfl
    | some cid => exact h p hp cid ho

/-- Uniformly transforming the stored values keeps every key and transforms
every lookup result. -/
theorem dictGet_map_val {α : Type} (m : List (String × α)) (g : α → α) (k : String) :
    dictGet (m.map fun p => (p.1, g p.2)) k = (dictGet m k).map g := by
  induction m with
  | nil => simp [dictGet]
  | cons q m ih =>
    obtain ⟨qk, qv⟩ := q
    by_cases h : k = qk
    · subst h
      simp [dictGet]
    · simp [dictGet, h, ih]

/-- Lookup after the in-place update performed by
`ConversationManager.add_message`. -/
theorem dictGet_map_add_message (l : List (String × Conversation))
    (conv_id k : String) (message : Message) :
    dictGet (l.map fun p =>
        (p.1, if p.1 = conv_id then p.2.add_message message else p.2)) k =
      if k = conv_id then
        (dictGet l conv_id).map (fun cv => cv.add_message message)
      else dictGet l k := by
  induction l with
  | nil => simp [dictGet]
  | cons q l ih =>
    obtain ⟨qk, qv⟩ := q
    by_cases h1 : qk = conv_id
    · subst h1
      by_cases h2 : k = qk
      · subst h2
        simp [dictGet]
      · simp [dictGet, h2, ih]
    · by_cases h2 : k = qk
      · subst h2
        simp [dictGet, h1]
      · simp [dictGet, h1, h2, ih, Ne.symm h1]

/-- Lookup after the in-place update performed by
`ConversationManager.end_conversation`. -/
theorem dictGet_map_end_conversation (l : List (String × Conversation))
    (conv_id k : String) (now : ℚ) :
    dictGet (l.map fun p =>
        (p.1, if p.1 = conv_id then p.2.end_conversation now else p.2)) k =
      if k = conv_id then
        (dictGet l conv_id).map (fun cv => cv.end_conversation now)
      else dictGet l k := by
  induction l with
  | nil => simp [dictGet]
  | cons q l ih =>
    obtain ⟨qk, qv⟩ := q
    by_cases h1 : qk = conv_id
    · subst h1
      by_cases h2 : k = qk
      · subst h2
        simp [dictGet]
      · simp [dictGet, h2, ih]
    · by_cases h2 : k = qk
      · subst h2
        simp [dictGet, h1]
      · simp [dictGet, h1, h2, ih, Ne.symm h1]

/-- C9: `ConversationManager.add_message(id, message)` never raises (it is a
total function of the store): when `id` is a registered key it appends the
message to that conversation's message list and reports `true`; when `id` is
absent it reports `false` and the whole store — every conversation and every
current pointer — is left unchanged. -/
theorem manager_add_message_spec (mgr : ConversationManager) (conv_id : String)
    (message : Message) :
    ((dictGet mgr.conversations conv_id).isSome = true →
      (mgr.add_message conv_id message).1 = true ∧
      dictGet (mgr.add_message conv_id message).2.conversations conv_id =
        (dictGet mgr.conversations conv_id).map (fun cv => cv.add_message message) ∧
      (∀ k, ¬ k = conv_id →
        dictGet (mgr.add_message conv_id message).2.conversations k =
          dictGet mgr.conversations k) ∧
      (mgr.add_message conv_id message).2.current_conversation_ids =
        mgr.current_conversation_ids) ∧
    ((dictGet mgr.conversations conv_id).isSome = false →
      (mgr.add_message conv_id message).1 = false ∧
      (mgr.add_message conv_id message).2 = mgr) := by
  constructor
  · intro h
    refine ⟨?_, ?_, ?_, ?_⟩
    · simp [ConversationManager.add_message, h]
    · simp [ConversationManager.add_message, h, dictGet_map_add_message]
    · intro k hk
      simp [ConversationManager.add_message, h, dictGet_map_add_message, hk]
    · simp [ConversationManager.add_message, h]
  · intro h
    constructor <;> simp [ConversationManager.add_message, h]

/-- Witness for C9 on a concrete store holding one conversation `"c1"`:
adding to `"c1"` succeeds and appends; adding to the unregistered `"zz"`
reports `false` and returns the store unchanged. -/
theorem manager_add_message_spec_witness :
    (dictGet (ConversationManager.init.start_conversation
        "openai" "gpt-4.1" "c1" 1).2.conversations "c1").isSome = true ∧
      ((ConversationManager.init.start_conversation
        "openai" "gpt-4.1" "c1" 1).2.add_message "c1" default).1 = true ∧
      (dictGet (ConversationManager.init.start_conversation
        "openai" "gpt-4.1" "c1" 1).2.conversations "zz").isSome = false ∧
      ((ConversationManager.init.start_conversation
        "openai" "gpt-4.1" "c1" 1).2.add_message "zz" default).2 =
        (ConversationManager.init.start_conversation "openai" "gpt-4.1" "c1" 1).2 :=
  ⟨by decide,
    ((manager_add_message_spec (ConversationManager.init.start_conversation
      "openai" "gpt-4.1" "c1" 1).2 "c1" default).1 (by decide)).1,
    by decide,
    ((manager_add_message_spec (ConversationManager.init.start_conversation
      "openai" "gpt-4.1" "c1" 1).2 "zz" default).2 (by decide)).2⟩

/-- C10: the store invariant — every pointer held in
`current_conversation_ids` is `None` or a key of `conversations` — is
preserved by every `ConversationManager` operation, and `start_conversation`
registers the new conversation under its id and only then points the
backend's current slot at it (so the freshly set pointer always resolves). -/
theorem manager_invariant_preserved (mgr : ConversationManager)
    (api_name model conv_id conv_id2 : String) (message : Message) (now : ℚ)
    (h : Inv mgr) :
    Inv (mgr.start_conversation api_name model conv_id now).2 ∧
      (dictGet (mgr.start_conversation api_name model conv_id now).2.conversations
        conv_id).isSome = true ∧
      dictGet (mgr.start_conversation api_name model conv_id now).2.current_conversation_ids
        api_name = some (some conv_id) ∧
      Inv (mgr.add_message conv_id2 message).2 ∧
      Inv (mgr.end_conversation conv_id2 now).2 ∧
      Inv (mgr.save_all_conversations now) ∧
      (mgr.get_conversation conv_id2).2 = mgr ∧
      (mgr.get_current_conversation api_name).2 = mgr := by
  rw [inv_iff] at h
  refine ⟨?_, ?_, ?_, ?_, ?_, ?_, rfl, ?_⟩
  · rw [inv_iff]
    intro p hp cid hcid
    simp only [ConversationManager.start_conversation] at hp ⊢
    rw [dictSet_get]
    by_cases hc : cid = conv_id
    · simp [hc]
    · rw [if_neg hc]
      unfold dictSet at hp
      by_cases hapi : (dictGet mgr.current_conversation_ids api_name).isSome
      · rw [if_pos hapi] at hp
        obtain ⟨q, hq, hqe⟩ := List.mem_map.mp hp
        by_cases hqk : q.1 = api_name
        · rw [if_pos hqk] at hqe
          rw [← hqe] at hcid
          simp at hcid
          exact absurd hcid.symm hc
        · rw [if_neg hqk] at hqe
          have hqp : q = p := hqe
          subst hqp
          exact h q hq cid hcid
      · rw [if_neg hapi] at hp
        rcases List.mem_append.mp hp with hold | hnew
        · exact h p hold cid hcid
        · simp at hnew
          rw [hnew] at hcid
          simp at hcid
          exact absurd hcid.symm hc
  · simp only [ConversationManager.start_conversation]
    rw [dictSet_get, if_pos rfl]
    rfl
  · simp only [ConversationManager.start_conversation]
    rw [dictSet_get, if_pos rfl]
  · unfold ConversationManager.add_message
    by_cases hs : (dictGet mgr.conversations conv_id2).isSome
    · rw [if_pos hs, inv_iff]
      intro p hp cid hcid
      simp only at hp ⊢
      rw [dictGet_map_add_message]
      by_cases hc : cid = conv_id2
      · rw [if_pos hc]
        have hres := h p hp cid hcid
        rw [hc] at hres
        cases hdg : dictGet mgr.conversations conv_id2 with
        | none => rw [hdg] at hres; simp at hres
        | some w => rfl
      · rw [if_neg hc]
        exact h p hp cid hcid
    · rw [if_neg hs]
      rw [inv_iff]
      exact h
  · unfold ConversationManager.end_conversation
    by_cases hs : (dictGet mgr.conversations conv_id2).isSome
    · rw [if_pos hs, inv_iff]
      intro p hp cid hcid
      simp only at hp ⊢
      rw [dictGet_map_end_conversation]
      by_cases hc : cid = conv_id2
      · rw [if_pos hc]
        have hres := h p hp cid hcid
        rw [hc] at hres
        cases hdg : dictGet mgr.conversations conv_id2 with
        | none => rw [hdg] at hres; simp at hres
        | some w => rfl
      · rw [if_neg hc]
        exact h p hp cid hcid
    · rw [if_neg hs]
      rw [inv_iff]
      exact h
  · rw [inv_iff]
    intro p hp cid hcid
    simp only [ConversationManager.save_all_conversations] at hp ⊢
    rw [dictGet_map_val]
    have hres := h p hp cid hcid
    cases hdg : dictGet mgr.conversations cid with
    | none => rw [hdg] at hres; simp at hres
    | some w => rfl
  · unfold ConversationManager.get_current_conversation
    cases dictGet mgr.current_conversation_ids api_name with
    | none => rfl
    | some o =>
        cases o with
        | none => rfl
        | some cid => by_cases hc : cid = "" <;> simp [hc]

/-- Witness for C10: the empty initial store satisfies the invariant, and it
is preserved across a concrete `start_conversation` call. -/
theorem manager_invariant_preserved_witness :
    Inv ConversationManager.init ∧
      Inv (ConversationManager.init.start_conversation "openai" "gpt-4.1" "c1" 1).2 :=
  ⟨by decide,
    (manager_invariant_preserved ConversationManager.init "openai" "gpt-4.1" "c1" "c1"
      default 1 (by decide)).1⟩

end LLMBench
